import Mathlib

/-!
Verification of the orashub request-routing layer.

Shallow embedding of the Go sources:
* `server/policy/policy.go` — pattern matching and the allow/block policy engine;
* `server/router/api_manager.go` — client lookup, policy gate, the five content
  handlers (list-tags, resource-info, descriptor, manifest, download);
* `server/router/router.go` — the legacy `Router` handlers;
* `client/client.go`, `client/layerinfo.go` — first-layer resolution and metadata.

Go strings are modelled as Lean `String` (operations implemented over the
underlying character list so the kernel can evaluate them); Go's `int64` sizes
are modelled as `Int` (no arithmetic is performed on them); fallible operations
return `Except`; network effects of the registry client are modelled by a
behaviour record of response functions, and every handler result carries the
list of registry-client calls the handler performed.
-/

namespace Orashub

/-- Embedding of Go `strings.HasPrefix s pre`. -/
def strHasPre (s pre : String) : Bool :=
  pre.data.isPrefixOf s.data

/-- Embedding of Go `strings.HasSuffix s suf`. -/
def strHasSuf (s suf : String) : Bool :=
  suf.data.isSuffixOf s.data

/-- Embedding of Go `strings.TrimSuffix s suf`: drops `suf` from the end of `s`
when it is a suffix, otherwise returns `s` unchanged. -/
def strTrimSuf (s suf : String) : String :=
  if strHasSuf s suf then ⟨s.data.take (s.data.length - suf.data.length)⟩ else s

/-- `policy.ImagePolicy` from `server/policy/policy.go`. -/
structure ImagePolicy where
  AllowedRepositories : List String
  BlockedRepositories : List String
deriving DecidableEq

/-- `repositoryMatches` from `server/policy/policy.go`:
wildcard support is a single trailing `*` trimmed before a prefix comparison;
otherwise exact equality. -/
def repositoryMatches (pattern repository : String) : Bool :=
  if strHasSuf pattern "*" then
    strHasPre repository (strTrimSuf pattern "*")
  else
    pattern == repository

/-- `IsAllowed` from `server/policy/policy.go` (non-nil policy): any blocked
match denies; an empty allowlist allows; otherwise an allowed match allows and
the default is deny.  The Go loops with early `return` are equivalent to
`List.any` over each list. -/
def IsAllowed (repository : String) (policy : ImagePolicy) : Bool :=
  if policy.BlockedRepositories.any (fun blocked => repositoryMatches blocked repository) then
    false
  else if policy.AllowedRepositories.isEmpty then
    true
  else
    policy.AllowedRepositories.any (fun allowed => repositoryMatches allowed repository)

/-- Go `IsAllowed` takes `*ImagePolicy`; a nil pointer is modelled as `none`.
On `none` the Go body dereferences the nil pointer (`policy.BlockedRepositories`)
and panics, so no boolean is returned: modelled as `none`. -/
def IsAllowedPtr (repository : String) (policy : Option ImagePolicy) : Option Bool :=
  match policy with
  | none => none
  | some p => some (IsAllowed repository p)

/-! ## Registry client (`client/client.go`, `client/layerinfo.go`) -/

/-- A manifest layer, as unmarshalled in `GetFirstLayerReader`
(`client/client.go`): digest, size, media type, annotations.  The Go `int64`
size is modelled as `Int`; the annotations map as an association list. -/
structure Layer where
  digest : String
  size : Int
  mediaType : String
  annotations : List (String × String)
deriving DecidableEq

/-- The manifest structure `GetFirstLayerReader` unmarshals: a layer list. -/
structure Manifest where
  layers : List Layer
deriving DecidableEq

/-- `client.LayerInfo` metadata (`client/layerinfo.go`).  The wrapped
`io.ReadCloser` stream is not data; its close behaviour is modelled by the
`closeCalls` count in `DownloadResult`. -/
structure LayerInfo where
  Filename : String
  MediaType : String
  Size : Int
deriving DecidableEq

/-- One registry-client call performed by a handler, for recording traces. -/
inductive RegistryCall where
  | listTags (repository : String)
  | getDescriptor (repository tag : String)
  | getManifest (repository tag : String)
  | getFirstLayerReader (repository tag : String)
  | fetchBlob (digest : String)
deriving DecidableEq

/-- Behaviour of the external registry for one configured client: the result
each upstream operation would produce.  `manifestOf` covers
`GetManifest` plus the JSON unmarshal in `GetFirstLayerReader` (a parse failure
is an `error` result); `fetchBlobOf` is `repo.Fetch` on a layer digest. -/
structure RegistryClientBehavior where
  registryName : String
  listTagsOf : String → Except String (List String)
  descriptorOf : String → String → Except String String
  manifestOf : String → String → Except String Manifest
  fetchBlobOf : String → Except String Unit

/-- The filename chosen in `GetFirstLayerReader` (`client/client.go`): the
`org.opencontainers.image.title` annotation of the first layer when present and
non-empty, else the default `plugin.zip`. -/
def firstLayerFilename (layer0 : Layer) : String :=
  match layer0.annotations.lookup "org.opencontainers.image.title" with
  | some title => if title == "" then "plugin.zip" else title
  | none => "plugin.zip"

/-- `Client.GetFirstLayerReader` (`client/client.go`): fetch and parse the
manifest, fail on an empty layer list before any blob fetch, else fetch the
first layer's blob and return the `LayerInfo` metadata.  The second component
is the trace of upstream calls made inside this function. -/
def clientGetFirstLayerReader (c : RegistryClientBehavior) (repository tag : String) :
    Except String LayerInfo × List RegistryCall :=
  match c.manifestOf repository tag with
  | .error e => (.error e, [.getManifest repository tag])
  | .ok manifest =>
    match manifest.layers with
    | [] => (.error "no layers found in manifest", [.getManifest repository tag])
    | layer0 :: _ =>
      match c.fetchBlobOf layer0.digest with
      | .error e =>
          (.error ("failed to fetch blob: " ++ e),
           [.getManifest repository tag, .fetchBlob layer0.digest])
      | .ok _ =>
          (.ok { Filename := firstLayerFilename layer0,
                 MediaType := layer0.mediaType,
                 Size := layer0.size },
           [.getManifest repository tag, .fetchBlob layer0.digest])

/-! ## ApiManager (`server/router/api_manager.go`) -/

/-- The two error values of `api_manager.go` (`ErrRegistryNotFound`,
`ErrNoRegistryClients`). -/
inductive GetClientError where
  | registryNotFound
  | noRegistryClients
deriving DecidableEq

/-- `ApiManager`: the immutable client map (modelled as an association list
with exact string keys) and the optional policy pointer. -/
structure ApiManager where
  Clients : List (String × RegistryClientBehavior)
  ImagePolicy : Option ImagePolicy

/-- `ApiManager.getClient` (`api_manager.go` lines 91-99): return the client
stored under the exact registry key, otherwise `ErrRegistryNotFound` wrapped
with the quoted name.  Note the body never returns `ErrNoRegistryClients`. -/
def getClient (m : ApiManager) (registry : String) : Except GetClientError RegistryClientBehavior :=
  match m.Clients.lookup registry with
  | some c => .ok c
  | none => .error .registryNotFound

/-- The HTTP status each handler's `switch` assigns to a `getClient` error:
`ErrRegistryNotFound` → 404, `ErrNoRegistryClients` → 503. -/
def statusForClientError : GetClientError → Nat
  | .registryNotFound => 404
  | .noRegistryClients => 503

/-- The error message text each handler writes for a `getClient` error
(`err.Error()`; `%w: '%s'` formatting for the not-found case). -/
def messageForClientError (e : GetClientError) (registry : String) : String :=
  match e with
  | .registryNotFound => "registry not found: " ++ "\x27" ++ registry ++ "\x27"
  | .noRegistryClients => "no registry clients available"

/-- Outcome of `ApiManager.checkImagePolicy` (`api_manager.go` lines 183-223):
either the nil/empty-policy short-circuit (allow, no path built), the
empty-registry 400 rejection, or a policy evaluation of a constructed
repository path. -/
inductive PolicyCheckOutcome where
  | allowedNoCheck
  | badRequest
  | checked (path : String) (allowed : Bool)
deriving DecidableEq

/-- `ApiManager.checkImagePolicy`: nil or empty policy allows everything;
an empty registry is a 400; otherwise the path is
`namespace/repository` when `namespace` already starts with `registry ++ "/"`,
else `registry/namespace/repository`, and `IsAllowed` decides. -/
def checkImagePolicy (pol : Option ImagePolicy) (registry namespc repository : String) :
    PolicyCheckOutcome :=
  match pol with
  | none => .allowedNoCheck
  | some p =>
    if p.AllowedRepositories.isEmpty && p.BlockedRepositories.isEmpty then
      .allowedNoCheck
    else if registry == "" then
      .badRequest
    else if strHasPre namespc (registry ++ "/") then
      .checked (namespc ++ "/" ++ repository)
        (IsAllowed (namespc ++ "/" ++ repository) p)
    else
      .checked (registry ++ "/" ++ namespc ++ "/" ++ repository)
        (IsAllowed (registry ++ "/" ++ namespc ++ "/" ++ repository) p)

/-- Whether `checkImagePolicy` returned `true` to its caller. -/
def PolicyCheckOutcome.passes : PolicyCheckOutcome → Bool
  | .allowedNoCheck => true
  | .badRequest => false
  | .checked _ allowed => allowed

/-- The fixed message written with the 403 policy denial. -/
def policyDeniedMessage : String := "Access to this repository is denied by policy"

/-- The message written with the 400 empty-registry rejection. -/
def registryRequiredMessage : String := "Registry is required for policy check"

/-- Result of a (non-download) handler: HTTP status, body text (success JSON
bodies are not modelled and left empty; `http.Error` bodies are modelled
without the trailing newline), and the trace of registry-client calls. -/
structure HandlerResult where
  status : Nat
  body : String
  calls : List RegistryCall
deriving DecidableEq

/-- `ApiManager.HandleListTags` (`api_manager.go` lines 226-275): resolve the
client, check policy, then list tags on `namespace/repository`. -/
def HandleListTags (m : ApiManager) (registry namespc repository : String) : HandlerResult :=
  match getClient m registry with
  | .error e =>
      { status := statusForClientError e, body := messageForClientError e registry, calls := [] }
  | .ok c =>
    match checkImagePolicy m.ImagePolicy registry namespc repository with
    | .badRequest => { status := 400, body := registryRequiredMessage, calls := [] }
    | .checked _ false => { status := 403, body := policyDeniedMessage, calls := [] }
    | _ =>
      match c.listTagsOf (namespc ++ "/" ++ repository) with
      | .error e =>
          { status := 500, body := e, calls := [.listTags (namespc ++ "/" ++ repository)] }
      | .ok _ =>
          { status := 200, body := "", calls := [.listTags (namespc ++ "/" ++ repository)] }

/-- `ApiManager.HandleResourceInfo` (`api_manager.go` lines 278-330): resolve
the client, check policy, then build the endpoint directory (URL construction
is not modelled; no registry-client operation is performed). -/
def HandleResourceInfo (m : ApiManager) (registry namespc repository tag : String) :
    HandlerResult :=
  match getClient m registry with
  | .error e =>
      { status := statusForClientError e, body := messageForClientError e registry, calls := [] }
  | .ok _ =>
    match checkImagePolicy m.ImagePolicy registry namespc repository with
    | .badRequest => { status := 400, body := registryRequiredMessage, calls := [] }
    | .checked _ false => { status := 403, body := policyDeniedMessage, calls := [] }
    | _ => { status := 200, body := "", calls := [] }

/-- `ApiManager.HandleDescriptor` (`api_manager.go` lines 333-380). -/
def HandleDescriptor (m : ApiManager) (registry namespc repository tag : String) :
    HandlerResult :=
  match getClient m registry with
  | .error e =>
      { status := statusForClientError e, body := messageForClientError e registry, calls := [] }
  | .ok c =>
    match checkImagePolicy m.ImagePolicy registry namespc repository with
    | .badRequest => { status := 400, body := registryRequiredMessage, calls := [] }
    | .checked _ false => { status := 403, body := policyDeniedMessage, calls := [] }
    | _ =>
      match c.descriptorOf (namespc ++ "/" ++ repository) tag with
      | .error e =>
          { status := 500, body := e,
            calls := [.getDescriptor (namespc ++ "/" ++ repository) tag] }
      | .ok _ =>
          { status := 200, body := "",
            calls := [.getDescriptor (namespc ++ "/" ++ repository) tag] }

/-- `ApiManager.HandleManifest` (`api_manager.go` lines 383-426). -/
def HandleManifest (m : ApiManager) (registry namespc repository tag : String) :
    HandlerResult :=
  match getClient m registry with
  | .error e =>
      { status := statusForClientError e, body := messageForClientError e registry, calls := [] }
  | .ok c =>
    match checkImagePolicy m.ImagePolicy registry namespc repository with
    | .badRequest => { status := 400, body := registryRequiredMessage, calls := [] }
    | .checked _ false => { status := 403, body := policyDeniedMessage, calls := [] }
    | _ =>
      match c.manifestOf (namespc ++ "/" ++ repository) tag with
      | .error e =>
          { status := 500, body := e,
            calls := [.getManifest (namespc ++ "/" ++ repository) tag] }
      | .ok _ =>
          { status := 200, body := "",
            calls := [.getManifest (namespc ++ "/" ++ repository) tag] }

/-- Result of the download handler: additionally the response headers that were
set and the number of `layerInfo.Close()` calls performed on the taken path. -/
structure DownloadResult where
  status : Nat
  body : String
  calls : List RegistryCall
  headers : List (String × String)
  closeCalls : Nat
deriving DecidableEq

/-- `ApiManager.HandleDownload` (`api_manager.go` lines 429-489): resolve the
client, check policy, obtain the first-layer stream, set the three headers,
write the status line, copy the body, and close the stream.
`copyResult` models the outcome of `io.Copy(w, layerInfo)`.
On a copy error the Go code logs, calls `http.Error` (ineffective: the 200
status line is already written) and returns — before the `layerInfo.Close()`
call, so no close happens on that path.  The Go `layerInfo == nil` branch is
unreachable with this client (every path yields a value or an error) and has
no counterpart here. -/
def HandleDownload (m : ApiManager) (registry namespc repository tag : String)
    (copyResult : Except String Unit) : DownloadResult :=
  match getClient m registry with
  | .error e =>
      { status := statusForClientError e, body := messageForClientError e registry,
        calls := [], headers := [], closeCalls := 0 }
  | .ok c =>
    match checkImagePolicy m.ImagePolicy registry namespc repository with
    | .badRequest =>
        { status := 400, body := registryRequiredMessage, calls := [], headers := [],
          closeCalls := 0 }
    | .checked _ false =>
        { status := 403, body := policyDeniedMessage, calls := [], headers := [],
          closeCalls := 0 }
    | _ =>
      match clientGetFirstLayerReader c (namespc ++ "/" ++ repository) tag with
      | (.error e, inner) =>
          { status := 500, body := e,
            calls := .getFirstLayerReader (namespc ++ "/" ++ repository) tag :: inner,
            headers := [], closeCalls := 0 }
      | (.ok li, inner) =>
          let headers :=
            [("Content-Type", li.MediaType),
             ("Content-Disposition", "attachment; filename=\"" ++ li.Filename ++ "\""),
             ("Content-Length", toString li.Size)]
          match copyResult with
          | .error _ =>
              { status := 200, body := "",
                calls := .getFirstLayerReader (namespc ++ "/" ++ repository) tag :: inner,
                headers := headers, closeCalls := 0 }
          | .ok _ =>
              { status := 200, body := "",
                calls := .getFirstLayerReader (namespc ++ "/" ++ repository) tag :: inner,
                headers := headers, closeCalls := 1 }

/-! ## Legacy `Router` (`server/router/router.go`) -/

/-- `Router.HandleListTags` (`router.go` lines 123-142): extracts the path
parameters and calls `ListTags` directly — no policy evaluation occurs in this
handler (its `checkImagePolicy` is only invoked by the descriptor, manifest and
download handlers). -/
def RouterHandleListTags (c : RegistryClientBehavior) (namespc repository : String) :
    HandlerResult :=
  match c.listTagsOf (namespc ++ "/" ++ repository) with
  | .error e =>
      { status := 500, body := e, calls := [.listTags (namespc ++ "/" ++ repository)] }
  | .ok _ =>
      { status := 200, body := "", calls := [.listTags (namespc ++ "/" ++ repository)] }

/-! ## Concrete fixtures used by witnesses and counterexamples -/

/-- A one-layer manifest: size 42, title annotation `x.zip`. -/
def xzipLayer : Layer :=
  { digest := "sha256:d1", size := 42, mediaType := "application/zip",
    annotations := [("org.opencontainers.image.title", "x.zip")] }

/-- A first layer whose title annotation is present but empty. -/
def emptyTitleLayer : Layer :=
  { digest := "sha256:d2", size := 7, mediaType := "application/zip",
    annotations := [("org.opencontainers.image.title", "")] }

/-- A registry behaviour that serves the one-layer `x.zip` manifest. -/
def downloadClient : RegistryClientBehavior :=
  { registryName := "ghcr.io"
    listTagsOf := fun _ => .ok ["latest"]
    descriptorOf := fun _ _ => .ok "descriptor"
    manifestOf := fun _ _ => .ok { layers := [xzipLayer] }
    fetchBlobOf := fun _ => .ok () }

/-- A registry behaviour that serves a zero-layer manifest. -/
def emptyManifestClient : RegistryClientBehavior :=
  { registryName := "ghcr.io"
    listTagsOf := fun _ => .ok ["latest"]
    descriptorOf := fun _ _ => .ok "descriptor"
    manifestOf := fun _ _ => .ok { layers := [] }
    fetchBlobOf := fun _ => .ok () }

/-- A policy that blocks every repository path. -/
def blockAllPolicy : ImagePolicy := { AllowedRepositories := [], BlockedRepositories := ["*"] }

/-- Manager with one client and the block-all policy. -/
def mgrBlocked : ApiManager :=
  { Clients := [("ghcr.io", downloadClient)], ImagePolicy := some blockAllPolicy }

/-- Manager with one client serving the `x.zip` manifest and no policy. -/
def mgrDownload : ApiManager :=
  { Clients := [("ghcr.io", downloadClient)], ImagePolicy := none }

/-- Manager with one client serving a zero-layer manifest and no policy. -/
def mgrEmptyManifest : ApiManager :=
  { Clients := [("ghcr.io", emptyManifestClient)], ImagePolicy := none }

/-- Manager with an empty client map. -/
def mgrNoClients : ApiManager := { Clients := [], ImagePolicy := none }

/-! ## Claim theorems -/

/-- C1: for every repository path and every policy, if the path matches any
pattern in the blocked list then `IsAllowed` returns `false`, regardless of the
contents of the allowed list. -/
theorem isAllowed_blocked_forces_deny (repository : String) (policy : ImagePolicy)
    (blocked : String) (hmem : blocked ∈ policy.BlockedRepositories)
    (hmatch : repositoryMatches blocked repository = true) :
    IsAllowed repository policy = false := by
  have hany : policy.BlockedRepositories.any
      (fun blocked => repositoryMatches blocked repository) = true :=
    List.any_eq_true.mpr ⟨blocked, hmem, hmatch⟩
  unfold IsAllowed
  rw [if_pos hany]

/-- C1 witness: a path blocked by `ghcr.io/evil/*` is denied even though the
allow list contains the same path verbatim. -/
theorem isAllowed_blocked_forces_deny_witness :
    "ghcr.io/evil/*" ∈ (ImagePolicy.mk ["ghcr.io/evil/tool"] ["ghcr.io/evil/*"]).BlockedRepositories ∧
    repositoryMatches "ghcr.io/evil/*" "ghcr.io/evil/tool" = true ∧
    IsAllowed "ghcr.io/evil/tool" (ImagePolicy.mk ["ghcr.io/evil/tool"] ["ghcr.io/evil/*"]) = false :=
  ⟨by decide, by decide,
    isAllowed_blocked_forces_deny "ghcr.io/evil/tool"
      (ImagePolicy.mk ["ghcr.io/evil/tool"] ["ghcr.io/evil/*"])
      "ghcr.io/evil/*" (by decide) (by decide)⟩

/-- The matcher exactly as the spec words it: either the pattern does not end
in `*` and equals the path by case-sensitive string equality, or the pattern
ends in a trailing `*` and the path has the pattern with that `*` trimmed as a
prefix. -/
def repositoryMatchesSpec (pattern repository : String) : Bool :=
  (!strHasSuf pattern "*" && pattern == repository) ||
  (strHasSuf pattern "*" && strHasPre repository (strTrimSuf pattern "*"))

/-- C5: the code's pattern matching coincides with the spec's description for
every pattern and path, and behaves as stated on the three examples
(`ghcr.io/foo/*` matches `ghcr.io/foo/bar` and `ghcr.io/foo/`, not
`ghcr.io/food/bar`). -/
theorem repositoryMatches_spec_equiv :
    (∀ pattern repository,
       repositoryMatches pattern repository = repositoryMatchesSpec pattern repository) ∧
    repositoryMatches "ghcr.io/foo/*" "ghcr.io/foo/bar" = true ∧
    repositoryMatches "ghcr.io/foo/*" "ghcr.io/foo/" = true ∧
    repositoryMatches "ghcr.io/foo/*" "ghcr.io/food/bar" = false := by
  refine ⟨fun pattern repository => ?_, by decide, by decide, by decide⟩
  unfold repositoryMatches repositoryMatchesSpec
  cases h : strHasSuf pattern "*" <;> simp [h]

/-- C10: in a pattern ending in two or more asterisks only the final asterisk
is a wildcard: the pattern matches exactly the paths that start with the
pattern minus its last character. -/
theorem repositoryMatches_double_star (pattern repository : String)
    (h : strHasSuf pattern "**" = true) :
    repositoryMatches pattern repository = strHasPre repository ⟨pattern.data.dropLast⟩ := by
  have hs : strHasSuf pattern "*" = true := by
    unfold strHasSuf at h ⊢
    rw [List.isSuffixOf_iff_suffix] at h ⊢
    exact List.IsSuffix.trans ⟨['*'], rfl⟩ h
  unfold repositoryMatches
  rw [if_pos hs]
  congr 1
  unfold strTrimSuf
  rw [if_pos hs]
  congr 1
  rw [List.dropLast_eq_take, show ("*" : String).data.length = 1 from rfl]

/-- C10 witness: `foo**` matches `foo*bar` (the remaining asterisk must appear
literally) but not `foobar`. -/
theorem repositoryMatches_double_star_witness :
    strHasSuf "foo**" "**" = true ∧
    repositoryMatches "foo**" "foo*bar" = strHasPre "foo*bar" ⟨"foo**".data.dropLast⟩ ∧
    repositoryMatches "foo**" "foo*bar" = true ∧
    repositoryMatches "foo**" "foobar" = false :=
  ⟨by decide, repositoryMatches_double_star "foo**" "foo*bar" (by decide),
    by decide, by decide⟩

/-- C9 counterexample: a nil policy does not make `IsAllowed` return `true`;
the Go body dereferences the nil pointer (modelled as `none`: no boolean is
produced). -/
theorem isAllowedPtr_nil_cx :
    IsAllowedPtr "ghcr.io/acme/plugin" none ≠ some true := by
  intro h
  simp [IsAllowedPtr] at h

/-- C9 (amended): for every non-nil policy, `IsAllowed` returns a boolean
(total, pure); when both pattern lists are empty it returns `true`; the
allow-all short-circuit for a nil policy lives in the caller
`checkImagePolicy`, which allows without invoking `IsAllowed`. -/
theorem isAllowed_total_for_nonnil (repository : String) (p : ImagePolicy) :
    (∃ b, IsAllowedPtr repository (some p) = some b) ∧
    (p.AllowedRepositories = [] → p.BlockedRepositories = [] →
       IsAllowed repository p = true) ∧
    (∀ registry namespc repo2,
       checkImagePolicy none registry namespc repo2 = PolicyCheckOutcome.allowedNoCheck) := by
  refine ⟨⟨IsAllowed repository p, rfl⟩, fun hA hB => ?_, fun _ _ _ => rfl⟩
  unfold IsAllowed
  rw [hA, hB]
  simp

/-- C9 witness: the empty policy allows a concrete path. -/
theorem isAllowed_total_for_nonnil_witness :
    IsAllowed "ghcr.io/acme/plugin" (ImagePolicy.mk [] []) = true :=
  (isAllowed_total_for_nonnil "ghcr.io/acme/plugin" (ImagePolicy.mk [] [])).2.1 rfl rfl

/-- C4 counterexample: with an empty client map, `getClient` returns
`ErrRegistryNotFound`, not `ErrNoRegistryClients` as the claim requires. -/
theorem getClient_empty_map_cx :
    getClient mgrNoClients "c.example" = .error .registryNotFound ∧
    getClient mgrNoClients "c.example" ≠ .error .noRegistryClients := by
  refine ⟨rfl, fun h => ?_⟩
  rw [show getClient mgrNoClients "c.example" = .error .registryNotFound from rfl] at h
  simp at h

/-- C4 (amended): `getClient` returns the stored client exactly when the name
is a key of the map, and `ErrRegistryNotFound` otherwise — also when the map is
empty; it never produces `ErrNoRegistryClients`.  The handlers' error switch
maps `ErrRegistryNotFound` to 404 and `ErrNoRegistryClients` to 503, and a
failed lookup yields that status with no registry-client call. -/
theorem getClient_lookup_behavior (m : ApiManager) (registry : String) :
    (∀ c, m.Clients.lookup registry = some c → getClient m registry = .ok c) ∧
    (m.Clients.lookup registry = none →
       getClient m registry = .error .registryNotFound) ∧
    getClient m registry ≠ .error .noRegistryClients ∧
    statusForClientError .registryNotFound = 404 ∧
    statusForClientError .noRegistryClients = 503 ∧
    (∀ e namespc repository, getClient m registry = .error e →
       (HandleListTags m registry namespc repository).status = statusForClientError e ∧
       (HandleListTags m registry namespc repository).calls = []) := by
  refine ⟨fun c hc => ?_, fun hn => ?_, ?_, rfl, rfl, fun e namespc repository he => ?_⟩
  · unfold getClient
    rw [hc]
  · unfold getClient
    rw [hn]
  · unfold getClient
    cases m.Clients.lookup registry <;> simp
  · have hmain : HandleListTags m registry namespc repository =
        { status := statusForClientError e, body := messageForClientError e registry,
          calls := [] } := by
      unfold HandleListTags
      rw [he]
    rw [hmain]
    exact ⟨rfl, rfl⟩

/-- C4 witness: an unknown registry over an empty client map yields
`ErrRegistryNotFound` and a 404 with no registry-client call. -/
theorem getClient_lookup_behavior_witness :
    getClient mgrNoClients "c.example" = .error .registryNotFound ∧
    (HandleListTags mgrNoClients "c.example" "acme" "plugin").status = 404 ∧
    (HandleListTags mgrNoClients "c.example" "acme" "plugin").calls = [] := by
  have hg := (getClient_lookup_behavior mgrNoClients "c.example").2.1 rfl
  have hh := (getClient_lookup_behavior mgrNoClients "c.example").2.2.2.2.2
    GetClientError.registryNotFound "acme" "plugin" hg
  exact ⟨hg, hh.1, hh.2⟩

/-- C2 counterexample: the legacy `Router.HandleListTags` (router.go) performs
no policy evaluation: with a policy that blocks every repository path it still
answers 200 and performs a `ListTags` registry call instead of a 403 with zero
calls. -/
theorem routerListTags_ignores_policy_cx :
    IsAllowed "ghcr.io/acme/plugin" blockAllPolicy = false ∧
    (RouterHandleListTags downloadClient "acme" "plugin").status = 200 ∧
    (RouterHandleListTags downloadClient "acme" "plugin").calls =
      [RegistryCall.listTags "acme/plugin"] ∧
    (RouterHandleListTags downloadClient "acme" "plugin").status ≠ 403 := by
  exact ⟨by decide, rfl, rfl, by decide⟩

/-- C2 (amended): for the `ApiManager` handlers, whenever the client resolves
and the policy check denies the constructed repository path, each of the five
content handlers answers 403 with the fixed message and performs zero
registry-client calls (policy evaluation precedes every upstream call). -/
theorem apiManager_denied_no_upstream (m : ApiManager)
    (registry namespc repository tag path : String) (c : RegistryClientBehavior)
    (copyResult : Except String Unit)
    (hc : getClient m registry = .ok c)
    (hp : checkImagePolicy m.ImagePolicy registry namespc repository = .checked path false) :
    HandleListTags m registry namespc repository =
      { status := 403, body := policyDeniedMessage, calls := [] } ∧
    HandleResourceInfo m registry namespc repository tag =
      { status := 403, body := policyDeniedMessage, calls := [] } ∧
    HandleDescriptor m registry namespc repository tag =
      { status := 403, body := policyDeniedMessage, calls := [] } ∧
    HandleManifest m registry namespc repository tag =
      { status := 403, body := policyDeniedMessage, calls := [] } ∧
    HandleDownload m registry namespc repository tag copyResult =
      { status := 403, body := policyDeniedMessage, calls := [], headers := [],
        closeCalls := 0 } := by
  refine ⟨?_, ?_, ?_, ?_, ?_⟩
  · unfold HandleListTags
    rw [hc, hp]
  · unfold HandleResourceInfo
    rw [hc, hp]
  · unfold HandleDescriptor
    rw [hc, hp]
  · unfold HandleManifest
    rw [hc, hp]
  · unfold HandleDownload
    rw [hc, hp]

/-- C2 witness: under the block-all policy a list-tags request is a 403 with no
registry call, and a download request performs no call either. -/
theorem apiManager_denied_no_upstream_witness :
    getClient mgrBlocked "ghcr.io" = .ok downloadClient ∧
    checkImagePolicy mgrBlocked.ImagePolicy "ghcr.io" "acme" "plugin" =
      .checked "ghcr.io/acme/plugin" false ∧
    (HandleListTags mgrBlocked "ghcr.io" "acme" "plugin").status = 403 ∧
    (HandleListTags mgrBlocked "ghcr.io" "acme" "plugin").calls = [] ∧
    (HandleDownload mgrBlocked "ghcr.io" "acme" "plugin" "latest" (.ok ())).calls = [] := by
  have h := apiManager_denied_no_upstream mgrBlocked "ghcr.io" "acme" "plugin" "latest"
    "ghcr.io/acme/plugin" downloadClient (.ok ()) rfl rfl
  refine ⟨rfl, rfl, ?_, ?_, ?_⟩
  · rw [h.1]
  · rw [h.1]
  · rw [h.2.2.2.2]

/-- C3 (at the failing input): once the streaming stage is reached, a failed
body copy skips the `layerInfo.Close()` call entirely (the handler returns
first), while a successful copy closes exactly once; the 200 status line is
already written when the copy fails. -/
theorem handleDownload_close_calls_at_failing_input :
    (HandleDownload mgrDownload "ghcr.io" "acme" "plugin" "latest"
      (.error "write: broken pipe")).closeCalls = 0 ∧
    (HandleDownload mgrDownload "ghcr.io" "acme" "plugin" "latest" (.ok ())).closeCalls = 1 ∧
    (HandleDownload mgrDownload "ghcr.io" "acme" "plugin" "latest"
      (.error "write: broken pipe")).status = 200 :=
  ⟨rfl, rfl, rfl⟩

/-- C6: a download whose manifest has a zero-length layer list answers 500 with
the distinct message, and no blob fetch is performed — `GetFirstLayerReader`
fails before the fetch. -/
theorem download_empty_manifest_500_no_blob_fetch (m : ApiManager)
    (registry namespc repository tag : String) (c : RegistryClientBehavior)
    (copyResult : Except String Unit)
    (hc : getClient m registry = .ok c)
    (hpass : (checkImagePolicy m.ImagePolicy registry namespc repository).passes = true)
    (hm : c.manifestOf (namespc ++ "/" ++ repository) tag = .ok { layers := [] }) :
    (HandleDownload m registry namespc repository tag copyResult).status = 500 ∧
    (HandleDownload m registry namespc repository tag copyResult).body =
      "no layers found in manifest" ∧
    (∀ d, RegistryCall.fetchBlob d ∉
       (HandleDownload m registry namespc repository tag copyResult).calls) ∧
    clientGetFirstLayerReader c (namespc ++ "/" ++ repository) tag =
      (.error "no layers found in manifest",
       [.getManifest (namespc ++ "/" ++ repository) tag]) := by
  have hr : clientGetFirstLayerReader c (namespc ++ "/" ++ repository) tag =
      (.error "no layers found in manifest",
       [.getManifest (namespc ++ "/" ++ repository) tag]) := by
    unfold clientGetFirstLayerReader
    rw [hm]
  have hmain : HandleDownload m registry namespc repository tag copyResult =
      { status := 500, body := "no layers found in manifest",
        calls := [.getFirstLayerReader (namespc ++ "/" ++ repository) tag,
                  .getManifest (namespc ++ "/" ++ repository) tag],
        headers := [], closeCalls := 0 } := by
    unfold HandleDownload
    rw [hc]
    cases hpc : checkImagePolicy m.ImagePolicy registry namespc repository with
    | allowedNoCheck => simp only [hr]
    | badRequest =>
        rw [hpc] at hpass
        simp [PolicyCheckOutcome.passes] at hpass
    | checked path allowed =>
        cases allowed with
        | false =>
            rw [hpc] at hpass
            simp [PolicyCheckOutcome.passes] at hpass
        | true => simp only [hr]
  refine ⟨by rw [hmain], by rw [hmain], fun d => ?_, hr⟩
  rw [hmain]
  simp

/-- C6 witness: concrete zero-layer download yields 500 and never fetches a
blob. -/
theorem download_empty_manifest_500_no_blob_fetch_witness :
    (HandleDownload mgrEmptyManifest "ghcr.io" "acme" "plugin" "latest" (.ok ())).status = 500 ∧
    RegistryCall.fetchBlob "sha256:d2" ∉
      (HandleDownload mgrEmptyManifest "ghcr.io" "acme" "plugin" "latest" (.ok ())).calls := by
  have h := download_empty_manifest_500_no_blob_fetch mgrEmptyManifest "ghcr.io" "acme"
    "plugin" "latest" emptyManifestClient (.ok ()) rfl rfl rfl
  exact ⟨h.1, h.2.2.1 "sha256:d2"⟩

/-- C7 counterexample: a title annotation that is present but empty does not
become the filename — the code falls back to the fixed default `plugin.zip`,
while the claim requires the annotation's value whenever it is present. -/
theorem firstLayerFilename_empty_title_cx :
    emptyTitleLayer.annotations.lookup "org.opencontainers.image.title" = some "" ∧
    firstLayerFilename emptyTitleLayer = "plugin.zip" ∧
    firstLayerFilename emptyTitleLayer ≠ "" := by
  exact ⟨rfl, rfl, by decide⟩

/-- C7 (amended): a successful download carries `Content-Type` equal to the
first layer's media type, `Content-Length` equal to the decimal rendering of
its size, and `Content-Disposition` `attachment; filename="n"` where `n` is the
title annotation when present and non-empty, else the default `plugin.zip`
(an empty title also falls back to the default); the stream is closed once. -/
theorem download_headers_amended (m : ApiManager)
    (registry namespc repository tag : String) (c : RegistryClientBehavior)
    (layer0 : Layer) (rest : List Layer)
    (hc : getClient m registry = .ok c)
    (hpass : (checkImagePolicy m.ImagePolicy registry namespc repository).passes = true)
    (hm : c.manifestOf (namespc ++ "/" ++ repository) tag = .ok { layers := layer0 :: rest })
    (hb : c.fetchBlobOf layer0.digest = .ok ()) :
    (HandleDownload m registry namespc repository tag (.ok ())).status = 200 ∧
    (HandleDownload m registry namespc repository tag (.ok ())).headers =
      [("Content-Type", layer0.mediaType),
       ("Content-Disposition", "attachment; filename=\"" ++ firstLayerFilename layer0 ++ "\""),
       ("Content-Length", toString layer0.size)] ∧
    (HandleDownload m registry namespc repository tag (.ok ())).closeCalls = 1 ∧
    (∀ title, layer0.annotations.lookup "org.opencontainers.image.title" = some title →
       title ≠ "" → firstLayerFilename layer0 = title) ∧
    (layer0.annotations.lookup "org.opencontainers.image.title" = some "" →
       firstLayerFilename layer0 = "plugin.zip") ∧
    (layer0.annotations.lookup "org.opencontainers.image.title" = none →
       firstLayerFilename layer0 = "plugin.zip") := by
  have hr : clientGetFirstLayerReader c (namespc ++ "/" ++ repository) tag =
      (.ok { Filename := firstLayerFilename layer0, MediaType := layer0.mediaType,
             Size := layer0.size },
       [.getManifest (namespc ++ "/" ++ repository) tag, .fetchBlob layer0.digest]) := by
    unfold clientGetFirstLayerReader
    rw [hm]
    simp only [hb]
  have hmain : HandleDownload m registry namespc repository tag (.ok ()) =
      { status := 200, body := "",
        calls := [.getFirstLayerReader (namespc ++ "/" ++ repository) tag,
                  .getManifest (namespc ++ "/" ++ repository) tag,
                  .fetchBlob layer0.digest],
        headers := [("Content-Type", layer0.mediaType),
                    ("Content-Disposition",
                     "attachment; filename=\"" ++ firstLayerFilename layer0 ++ "\""),
                    ("Content-Length", toString layer0.size)],
        closeCalls := 1 } := by
    unfold HandleDownload
    rw [hc]
    cases hpc : checkImagePolicy m.ImagePolicy registry namespc repository with
    | allowedNoCheck => simp only [hr]
    | badRequest =>
        rw [hpc] at hpass
        simp [PolicyCheckOutcome.passes] at hpass
    | checked path allowed =>
        cases allowed with
        | false =>
            rw [hpc] at hpass
            simp [PolicyCheckOutcome.passes] at hpass
        | true => simp only [hr]
  refine ⟨by rw [hmain], by rw [hmain], by rw [hmain], fun title ht hne => ?_, fun ht => ?_,
    fun ht => ?_⟩
  · unfold firstLayerFilename
    rw [ht]
    simp [hne]
  · unfold firstLayerFilename
    rw [ht]
    simp
  · unfold firstLayerFilename
    rw [ht]

/-- C7 witness: the one-layer manifest with size 42 and title `x.zip` yields
exactly the claimed headers and one close. -/
theorem download_headers_amended_witness :
    (HandleDownload mgrDownload "ghcr.io" "acme" "plugin" "latest" (.ok ())).headers =
      [("Content-Type", "application/zip"),
       ("Content-Disposition", "attachment; filename=\"x.zip\""),
       ("Content-Length", "42")] ∧
    (HandleDownload mgrDownload "ghcr.io" "acme" "plugin" "latest" (.ok ())).closeCalls = 1 := by
  have h := download_headers_amended mgrDownload "ghcr.io" "acme" "plugin" "latest"
    downloadClient xzipLayer [] rfl rfl rfl rfl
  exact ⟨h.2.1.trans (by decide), h.2.2.1⟩

/-- C8: with a non-trivial policy and non-empty parameters, the path handed to
the policy engine is `registry/namespace/repository`, except that a namespace
already carrying `registry ++ "/"` as a prefix is used as
`namespace/repository` without duplicating the registry. -/
theorem checkImagePolicy_path_construction (p : ImagePolicy)
    (registry namespc repository : String)
    (hnt : ¬(p.AllowedRepositories = [] ∧ p.BlockedRepositories = []))
    (hreg : registry ≠ "") (hns : namespc ≠ "") (hrepo : repository ≠ "") :
    (strHasPre namespc (registry ++ "/") = false →
       checkImagePolicy (some p) registry namespc repository =
         .checked (registry ++ "/" ++ namespc ++ "/" ++ repository)
           (IsAllowed (registry ++ "/" ++ namespc ++ "/" ++ repository) p)) ∧
    (strHasPre namespc (registry ++ "/") = true →
       checkImagePolicy (some p) registry namespc repository =
         .checked (namespc ++ "/" ++ repository)
           (IsAllowed (namespc ++ "/" ++ repository) p)) := by
  have hne : (p.AllowedRepositories.isEmpty && p.BlockedRepositories.isEmpty) = false := by
    rcases p with ⟨A, B⟩
    cases A <;> cases B <;> simp_all
  constructor <;> intro h <;>
    · simp [checkImagePolicy, hne, hreg, h]

/-- C8 witness: namespace `ghcr.io/acme` under registry `ghcr.io` is not
re-prefixed. -/
theorem checkImagePolicy_path_construction_witness :
    checkImagePolicy (some blockAllPolicy) "ghcr.io" "ghcr.io/acme" "plugin" =
      .checked ("ghcr.io/acme" ++ "/" ++ "plugin")
        (IsAllowed ("ghcr.io/acme" ++ "/" ++ "plugin") blockAllPolicy) :=
  (checkImagePolicy_path_construction blockAllPolicy "ghcr.io" "ghcr.io/acme" "plugin"
    (by decide) (by decide) (by decide) (by decide)).2 (by decide)

end Orashub
